import Mathlib

/-
  Verification of the `layout` package of github.com/makeitmini/scaffold.

  The Layout component (src/layout/layout.go, src/layout/layout_utils.go) is
  embedded shallowly below.  Go `int` is modelled as `Int`; Go strings as
  `String`.  The scrollable Viewport is the external `bubbles/viewport`
  collaborator: the spec describes it as "a scrollable text buffer, current
  width/height, and a vertical scroll offset" with scroll-by-N, jump to
  top/bottom, at-top/at-bottom queries and clamping at both boundaries; the
  model below follows that contract together with the library's public API as
  used by the Go sources (fields `Width`, `Height`, `YOffset`, `YPosition`,
  methods `SetContent`, `LineDown`, `LineUp`, `GotoTop`, `GotoBottom`,
  `AtTop`, `AtBottom`, `View`).  `YOffset` is the vertical scroll offset that
  the scroll commands move and clamp; `YPosition` is a separate field of the
  library's model (the viewport's placement on the terminal, used only for
  high-performance rendering) that no scroll command touches.
-/

namespace Scaffold

/-- Go `strings.Count(s, "\n")`: the number of line-break characters in `s`
(for a one-character separator, `strings.Count` is a character count). -/
def countNewlines (s : String) : Int := (s.data.count '\n' : Int)

/-- `lineCount(C)` as the spec defines it: number of line-break characters
in `C` plus 1.  This is the local variable `lines` of `applyAlignment`. -/
def lineCount (s : String) : Int := countNewlines s + 1

/-- Go `strings.Repeat("\n", n)` / the `strings.Builder` loops of
`applyAlignment` that append `"\n"` `n` times. -/
def padNewlines : Nat → String
  | 0 => ""
  | n + 1 => padNewlines n ++ "\n"

/-- Normalization performed by the viewport's `SetContent`:
Go `strings.ReplaceAll(s, "\r\n", "\n")`, scanning left to right over
non-overlapping occurrences. -/
def normalizeNewlines : List Char → List Char
  | [] => []
  | '\r' :: '\n' :: rest => '\n' :: normalizeNewlines rest
  | c :: rest => c :: normalizeNewlines rest

/-- Go `strings.Split(s, "\n")` on the character list of `s`:
`[[]]` on the empty list, one (possibly empty) segment per separator plus
one trailing segment. -/
def splitNLChars : List Char → List (List Char)
  | [] => [[]]
  | '\n' :: rest => [] :: splitNLChars rest
  | c :: rest =>
    match splitNLChars rest with
    | [] => [[c]]
    | l :: ls => (c :: l) :: ls

/-- The line buffer the viewport's `SetContent` stores for a string `s`:
`strings.Split(strings.ReplaceAll(s, "\r\n", "\n"), "\n")`. -/
def contentLines (s : String) : List String :=
  (splitNLChars (normalizeNewlines s.data)).map String.mk

/-- Go `strings.Join(lines, sep)`. -/
def joinWith (sep : String) : List String → String
  | [] => ""
  | [s] => s
  | s :: rest => s ++ sep ++ joinWith sep rest

/-- The helper `clamp(v, low, high) = min(high, max(low, v))` of the
viewport library. -/
def clampInt (v lo hi : Int) : Int := min hi (max lo v)

/-- Model of `viewport.Model` from `bubbles/viewport` (external collaborator;
see the header comment).  Only the state the Layout sources read or write is
carried: dimensions, the scroll offset `YOffset`, the render-placement field
`YPosition`, and the stored line buffer. -/
structure ViewportModel where
  Width : Int
  Height : Int
  YOffset : Int
  YPosition : Int
  lines : List String
deriving Repr, DecidableEq

namespace ViewportModel

/-- Go `viewport.New(width, height)`: fresh model with the given dimensions,
zero offsets and an empty (nil) line buffer. -/
def new (width height : Int) : ViewportModel :=
  { Width := width, Height := height, YOffset := 0, YPosition := 0, lines := [] }

/-- `maxYOffset = max(0, len(m.lines) - m.Height)`: the maximum valid scroll
offset for the current content length and height. -/
def maxYOffset (m : ViewportModel) : Int :=
  max 0 ((m.lines.length : Int) - m.Height)

/-- `AtTop`: whether the viewport is scrolled to or past the top
(`m.YOffset <= 0`). -/
def atTop (m : ViewportModel) : Bool := decide (m.YOffset ≤ 0)

/-- `AtBottom`: whether the viewport is scrolled to or past the maximum
valid offset (`m.YOffset >= m.maxYOffset()`). -/
def atBottom (m : ViewportModel) : Bool := decide (m.YOffset ≥ m.maxYOffset)

/-- `SetYOffset(n)`: sets the scroll offset, clamped into
`[0, maxYOffset]`. -/
def setYOffset (m : ViewportModel) (n : Int) : ViewportModel :=
  { m with YOffset := clampInt n 0 m.maxYOffset }

/-- `GotoTop`: no-op when already at the top, otherwise offset `0`. -/
def gotoTop (m : ViewportModel) : ViewportModel :=
  if m.atTop then m else m.setYOffset 0

/-- `GotoBottom`: sets the offset to the maximum valid offset. -/
def gotoBottom (m : ViewportModel) : ViewportModel :=
  m.setYOffset m.maxYOffset

/-- `LineDown(n)`: no-op at the bottom, for `n = 0`, or with an empty
buffer; otherwise moves the offset down by `n`, clamped. -/
def lineDown (m : ViewportModel) (n : Int) : ViewportModel :=
  if m.atBottom ∨ n = 0 ∨ m.lines = [] then m
  else m.setYOffset (m.YOffset + n)

/-- `LineUp(n)`: no-op at the top, for `n = 0`, or with an empty buffer;
otherwise moves the offset up by `n`, clamped. -/
def lineUp (m : ViewportModel) (n : Int) : ViewportModel :=
  if m.atTop ∨ n = 0 ∨ m.lines = [] then m
  else m.setYOffset (m.YOffset - n)

/-- `SetContent(s)`: normalizes line endings, stores the split line buffer,
and jumps to the bottom if the offset now lies past the last line. -/
def setContent (m : ViewportModel) (s : String) : ViewportModel :=
  let m' := { m with lines := contentLines s }
  if m'.YOffset > (m'.lines.length : Int) - 1 then m'.gotoBottom else m'

/-- `visibleLines`: the slice `m.lines[top:bottom]` with
`top = max(0, YOffset)` and `bottom = clamp(YOffset+Height, top, len)`. -/
def visibleLines (m : ViewportModel) : List String :=
  if 0 < m.lines.length then
    let top := max 0 m.YOffset
    let bottom := clampInt (m.YOffset + m.Height) top (m.lines.length : Int)
    (m.lines.take bottom.toNat).drop top.toNat
  else []

/-- `View`: the visible lines joined by line breaks, padded with blank
lines up to the viewport height.  The library styles the result with the
model's own style, modelled as the identity on the text (rendering
attributes are outside the core; see the header comment). -/
def view (m : ViewportModel) : String :=
  let lines := m.visibleLines
  let extraLines :=
    if (lines.length : Int) < m.Height then
      padNewlines (max 0 (m.Height - (lines.length : Int))).toNat
    else ""
  joinWith "\n" lines ++ extraLines

end ViewportModel

/-- `lipgloss.Style` as the Layout uses it: the core only ever rewrites the
width (`style.Width(w)`) and renders text with it; all other attributes
(bold, colors, alignment) belong to the excluded rendering collaborator and
are not carried. -/
structure Style where
  width : Int
deriving Repr, DecidableEq

/-- `style.Width(w)`. -/
def Style.withWidth (st : Style) (w : Int) : Style := { st with width := w }

/-- `style.Render(s)`.  Modelled from the spec: styled-block rendering
belongs to the excluded rendering collaborator ("pure plumbing"); the model
returns the text unchanged. -/
def Style.render (_ : Style) (s : String) : String := s

/-- `lipgloss` horizontal positions, for `JoinVertical`. -/
inductive HPos
  | left
  | center
  | right
deriving Repr, DecidableEq

/-- `lipgloss.JoinVertical(pos, blocks...)`.  Modelled from the spec:
"vertical stacking of rendered blocks" by the excluded rendering
collaborator; modelled as joining the blocks with line breaks. -/
def joinVertical (_ : HPos) (blocks : List String) : String :=
  joinWith "\n" blocks

/-- `VerticalAlignment` with its three constants `AlignTop`, `AlignCenter`,
`AlignBottom` (src/layout/layout.go). -/
inductive VerticalAlignment
  | AlignTop
  | AlignCenter
  | AlignBottom
deriving Repr, DecidableEq

/-- The `Layout` struct (src/layout/layout.go).  `viewportContent` is the
raw (unaligned) content as last set by the caller; `pendingContent` holds
content set before the viewport exists. -/
structure Layout where
  header : String
  footer : String
  headerHeight : Int
  footerHeight : Int
  viewport : ViewportModel
  windowWidth : Int
  windowHeight : Int
  headerStyle : Style
  footerStyle : Style
  pendingContent : String
  verticalAlign : VerticalAlignment
  viewportContent : String
deriving Repr, DecidableEq

/-- `New()`: default Layout.  The `viewport` field is left at Go's zero
value for `viewport.Model` (all integers 0, nil line buffer); width 0 is
the "uninitialized" sentinel. -/
def Layout.New : Layout :=
  { header := "Header"
    footer := "Footer"
    headerHeight := 1
    footerHeight := 1
    viewport := { Width := 0, Height := 0, YOffset := 0, YPosition := 0, lines := [] }
    windowWidth := 0
    windowHeight := 0
    headerStyle := { width := 100 }
    footerStyle := { width := 100 }
    pendingContent := ""
    verticalAlign := VerticalAlignment.AlignTop
    viewportContent := "" }

/-- The string `applyAlignment` computes and hands to the viewport's
`SetContent`: the padded-content computation of the `switch` in
src/layout/layout.go lines 355-399, as a function of the raw content, the
alignment mode and the viewport height.  `Int.tdiv` is Go's integer
division (truncation toward zero). -/
def alignContent (content : String) (align : VerticalAlignment) (height : Int) : String :=
  let lines := lineCount content
  if lines < height then
    let paddingSize := height - lines
    match align with
    | VerticalAlignment.AlignTop => content
    | VerticalAlignment.AlignCenter => padNewlines (Int.tdiv paddingSize 2).toNat ++ content
    | VerticalAlignment.AlignBottom => padNewlines paddingSize.toNat ++ content
  else content

/-- `applyAlignment()`: no-op while the viewport is uninitialized
(width 0); otherwise recomputes the aligned string from `viewportContent`
and stores it in the viewport. -/
def Layout.applyAlignment (l : Layout) : Layout :=
  if l.viewport.Width = 0 then l
  else { l with viewport :=
          l.viewport.setContent (alignContent l.viewportContent l.verticalAlign l.viewport.Height) }

/-- `SetHeader`. -/
def Layout.setHeader (l : Layout) (s : String) : Layout := { l with header := s }

/-- `SetHeaderHeight`. -/
def Layout.setHeaderHeight (l : Layout) (n : Int) : Layout := { l with headerHeight := n }

/-- `SetHeaderStyle`. -/
def Layout.setHeaderStyle (l : Layout) (st : Style) : Layout := { l with headerStyle := st }

/-- `SetFooter`. -/
def Layout.setFooter (l : Layout) (s : String) : Layout := { l with footer := s }

/-- `SetFooterHeight`. -/
def Layout.setFooterHeight (l : Layout) (n : Int) : Layout := { l with footerHeight := n }

/-- `SetFooterStyle`. -/
def Layout.setFooterStyle (l : Layout) (st : Style) : Layout := { l with footerStyle := st }

/-- `SetContent`: stores the raw content; while the viewport is
uninitialized it additionally stores it into `pendingContent` and returns
without touching the viewport, otherwise it reapplies alignment. -/
def Layout.setContent (l : Layout) (content : String) : Layout :=
  let l := { l with viewportContent := content }
  if l.viewport.Width = 0 then { l with pendingContent := content }
  else l.applyAlignment

/-- `SetVerticalAlignment`: stores the mode and realigns only when raw
content is non-empty and the viewport is initialized. -/
def Layout.setVerticalAlignment (l : Layout) (a : VerticalAlignment) : Layout :=
  let l := { l with verticalAlign := a }
  if l.viewportContent ≠ "" ∧ l.viewport.Width > 0 then l.applyAlignment else l

/-- The messages the Layout's `Update` arm under verification consumes:
`tea.WindowSizeMsg`.  Key messages only delegate to the viewport's own
key handling, which drives the same scroll operations modelled by the
navigation methods below; the viewport ignores window-size messages, so
the trailing `l.viewport.Update(msg)` call of the Go `Update` is a no-op
on this message. -/
inductive Msg
  | windowSize (width height : Int)

/-- `Update` on a `tea.WindowSizeMsg` (src/layout/layout.go lines 266-291):
stores the dimensions, rewrites the style widths, computes
`viewportHeight = windowHeight - headerHeight - footerHeight`, then either
constructs the viewport (consuming non-empty pending content) or resizes
it in place and realigns. -/
def Layout.update (l : Layout) (msg : Msg) : Layout :=
  match msg with
  | Msg.windowSize w h =>
    let l := { l with
      windowWidth := w
      windowHeight := h
      headerStyle := l.headerStyle.withWidth w
      footerStyle := l.footerStyle.withWidth w }
    let viewportHeight : Int := l.windowHeight - l.headerHeight - l.footerHeight
    if l.viewport.Width = (0 : Int) then
      let l := { l with viewport := ViewportModel.new l.windowWidth viewportHeight }
      if l.pendingContent ≠ "" then
        ({ l with viewportContent := l.pendingContent, pendingContent := "" }).applyAlignment
      else l
    else
      ({ l with viewport :=
          { l.viewport with Width := l.windowWidth, Height := viewportHeight } }).applyAlignment

/-- `View` (src/layout/layout.go lines 311-327). -/
def Layout.view (l : Layout) : String :=
  if l.windowHeight = 0 then "Initializing..."
  else
    let header := l.headerStyle.render l.header
    let viewportContent := l.viewport.view
    let footer := l.footerStyle.render l.footer
    joinVertical HPos.left [header, viewportContent, footer]

/-- `GetViewportHeight` (src/layout/layout_utils.go). -/
def Layout.getViewportHeight (l : Layout) : Int := l.viewport.Height

/-- `GetViewportWidth`. -/
def Layout.getViewportWidth (l : Layout) : Int := l.viewport.Width

/-- `SetViewportYPosition`: writes the viewport's `YPosition` field. -/
def Layout.setViewportYPosition (l : Layout) (y : Int) : Layout :=
  { l with viewport := { l.viewport with YPosition := y } }

/-- `GetViewportYPosition`: reads the viewport's `YPosition` field. -/
def Layout.getViewportYPosition (l : Layout) : Int := l.viewport.YPosition

/-- `ViewportAtTop`. -/
def Layout.viewportAtTop (l : Layout) : Bool := l.viewport.atTop

/-- `ViewportAtBottom`. -/
def Layout.viewportAtBottom (l : Layout) : Bool := l.viewport.atBottom

/-- `LineDown`: scroll down one line. -/
def Layout.lineDown (l : Layout) : Layout := { l with viewport := l.viewport.lineDown 1 }

/-- `LineUp`: scroll up one line. -/
def Layout.lineUp (l : Layout) : Layout := { l with viewport := l.viewport.lineUp 1 }

/-- `HalfPageDown`: scroll down by `Height / 2` (Go integer division). -/
def Layout.halfPageDown (l : Layout) : Layout :=
  let halfPageHeight := Int.tdiv l.viewport.Height 2
  { l with viewport := l.viewport.lineDown halfPageHeight }

/-- `HalfPageUp`: scroll up by `Height / 2` (Go integer division). -/
def Layout.halfPageUp (l : Layout) : Layout :=
  let halfPageHeight := Int.tdiv l.viewport.Height 2
  { l with viewport := l.viewport.lineUp halfPageHeight }

/-- `PageDown`: scroll down by the full viewport height. -/
def Layout.pageDown (l : Layout) : Layout :=
  { l with viewport := l.viewport.lineDown l.viewport.Height }

/-- `PageUp`: scroll up by the full viewport height. -/
def Layout.pageUp (l : Layout) : Layout :=
  { l with viewport := l.viewport.lineUp l.viewport.Height }

/-- `ScrollToTop`. -/
def Layout.scrollToTop (l : Layout) : Layout := { l with viewport := l.viewport.gotoTop }

/-- `ScrollToBottom`. -/
def Layout.scrollToBottom (l : Layout) : Layout := { l with viewport := l.viewport.gotoBottom }

/-- Reachable Layout states: the default Layout closed under the public
setters, the navigation operations, and window-resize events with positive
width (width 0 being the library's "uninitialized" sentinel, spec section 3,
real resize events carry positive dimensions; the height is unconstrained). -/
inductive Reachable : Layout → Prop
  | init : Reachable Layout.New
  | setHeader (l : Layout) (s : String) : Reachable l → Reachable (l.setHeader s)
  | setFooter (l : Layout) (s : String) : Reachable l → Reachable (l.setFooter s)
  | setHeaderHeight (l : Layout) (n : Int) : Reachable l → Reachable (l.setHeaderHeight n)
  | setFooterHeight (l : Layout) (n : Int) : Reachable l → Reachable (l.setFooterHeight n)
  | setHeaderStyle (l : Layout) (st : Style) : Reachable l → Reachable (l.setHeaderStyle st)
  | setFooterStyle (l : Layout) (st : Style) : Reachable l → Reachable (l.setFooterStyle st)
  | setContent (l : Layout) (s : String) : Reachable l → Reachable (l.setContent s)
  | setVerticalAlignment (l : Layout) (a : VerticalAlignment) :
      Reachable l → Reachable (l.setVerticalAlignment a)
  | update (l : Layout) (w h : Int) : Reachable l → 0 < w →
      Reachable (l.update (Msg.windowSize w h))
  | lineDown (l : Layout) : Reachable l → Reachable l.lineDown
  | lineUp (l : Layout) : Reachable l → Reachable l.lineUp
  | halfPageDown (l : Layout) : Reachable l → Reachable l.halfPageDown
  | halfPageUp (l : Layout) : Reachable l → Reachable l.halfPageUp
  | pageDown (l : Layout) : Reachable l → Reachable l.pageDown
  | pageUp (l : Layout) : Reachable l → Reachable l.pageUp
  | scrollToTop (l : Layout) : Reachable l → Reachable l.scrollToTop
  | scrollToBottom (l : Layout) : Reachable l → Reachable l.scrollToBottom
  | setViewportYPosition (l : Layout) (y : Int) :
      Reachable l → Reachable (l.setViewportYPosition y)

namespace ViewportModel

theorem setYOffset_Width (m : ViewportModel) (n : Int) : (m.setYOffset n).Width = m.Width := rfl

theorem setYOffset_Height (m : ViewportModel) (n : Int) : (m.setYOffset n).Height = m.Height := rfl

theorem setYOffset_lines (m : ViewportModel) (n : Int) : (m.setYOffset n).lines = m.lines := rfl

theorem gotoTop_Width (m : ViewportModel) : m.gotoTop.Width = m.Width := by
  rw [gotoTop]; split <;> rfl

theorem gotoTop_Height (m : ViewportModel) : m.gotoTop.Height = m.Height := by
  rw [gotoTop]; split <;> rfl

theorem gotoTop_lines (m : ViewportModel) : m.gotoTop.lines = m.lines := by
  rw [gotoTop]; split <;> rfl

theorem gotoBottom_Width (m : ViewportModel) : m.gotoBottom.Width = m.Width := rfl

theorem gotoBottom_Height (m : ViewportModel) : m.gotoBottom.Height = m.Height := rfl

theorem gotoBottom_lines (m : ViewportModel) : m.gotoBottom.lines = m.lines := rfl

theorem lineDown_Width (m : ViewportModel) (n : Int) : (m.lineDown n).Width = m.Width := by
  rw [lineDown]; split <;> rfl

theorem lineDown_Height (m : ViewportModel) (n : Int) : (m.lineDown n).Height = m.Height := by
  rw [lineDown]; split <;> rfl

theorem lineDown_lines (m : ViewportModel) (n : Int) : (m.lineDown n).lines = m.lines := by
  rw [lineDown]; split <;> rfl

theorem lineUp_Width (m : ViewportModel) (n : Int) : (m.lineUp n).Width = m.Width := by
  rw [lineUp]; split <;> rfl

theorem lineUp_Height (m : ViewportModel) (n : Int) : (m.lineUp n).Height = m.Height := by
  rw [lineUp]; split <;> rfl

theorem lineUp_lines (m : ViewportModel) (n : Int) : (m.lineUp n).lines = m.lines := by
  rw [lineUp]; split <;> rfl

theorem setContent_Width (m : ViewportModel) (s : String) : (m.setContent s).Width = m.Width := by
  rw [setContent]; split <;> rfl

theorem setContent_Height (m : ViewportModel) (s : String) :
    (m.setContent s).Height = m.Height := by
  rw [setContent]; split <;> rfl

theorem setContent_lines (m : ViewportModel) (s : String) :
    (m.setContent s).lines = contentLines s := by
  rw [setContent]; split <;> rfl

end ViewportModel

/-- Unfolding of `applyAlignment` on an initialized viewport. -/
theorem Layout.applyAlignment_of_ne (l : Layout) (h : l.viewport.Width ≠ 0) :
    l.applyAlignment =
      { l with viewport :=
          l.viewport.setContent (alignContent l.viewportContent l.verticalAlign l.viewport.Height) } := by
  rw [Layout.applyAlignment, if_neg h]

/-- The state invariant maintained by every Layout operation: while the
viewport is uninitialized, `pendingContent` mirrors the raw content; once
initialized, the width is positive and (for non-empty raw content) the
viewport's line buffer is exactly the aligned raw content recomputed at the
current mode and height. -/
def LayoutInv (l : Layout) : Prop :=
  (l.viewport.Width = 0 → l.pendingContent = l.viewportContent) ∧
  (l.viewport.Width ≠ 0 →
    0 < l.viewport.Width ∧
    (l.viewportContent ≠ "" →
      l.viewport.lines =
        contentLines (alignContent l.viewportContent l.verticalAlign l.viewport.Height)))

theorem layoutInv_new : LayoutInv Layout.New :=
  ⟨fun _ => rfl, fun h => absurd rfl h⟩

theorem layoutInv_viewport_op (l : Layout) (hI : LayoutInv l) (v : ViewportModel)
    (hW : v.Width = l.viewport.Width) (hH : v.Height = l.viewport.Height)
    (hL : v.lines = l.viewport.lines) :
    LayoutInv { l with viewport := v } := by
  obtain ⟨h1, h2⟩ := hI
  constructor
  · intro h
    exact h1 (by rw [← hW]; exact h)
  · intro h
    have hw' : l.viewport.Width ≠ 0 := by rw [← hW]; exact h
    obtain ⟨hpos, hlines⟩ := h2 hw'
    constructor
    · show 0 < v.Width
      rw [hW]; exact hpos
    · intro hc
      show v.lines = contentLines (alignContent l.viewportContent l.verticalAlign v.Height)
      rw [hL, hH]
      exact hlines hc

theorem layoutInv_of_aligned (l : Layout) (hw : l.viewport.Width ≠ 0)
    (hpos : 0 < l.viewport.Width) : LayoutInv l.applyAlignment := by
  simp only [Layout.applyAlignment]
  rw [if_neg hw]
  constructor
  · intro h
    exact absurd (by rw [← ViewportModel.setContent_Width l.viewport]; exact h) hw
  · intro _
    constructor
    · show 0 < (l.viewport.setContent _).Width
      rw [ViewportModel.setContent_Width]; exact hpos
    · intro _
      show (l.viewport.setContent _).lines =
        contentLines (alignContent l.viewportContent l.verticalAlign
          (l.viewport.setContent _).Height)
      rw [ViewportModel.setContent_lines, ViewportModel.setContent_Height]

theorem layoutInv_setContent (l : Layout) (hI : LayoutInv l) (c : String) :
    LayoutInv (l.setContent c) := by
  simp only [Layout.setContent]
  split
  · next hw =>
    exact ⟨fun _ => rfl, fun h => absurd hw h⟩
  · next hw =>
    exact layoutInv_of_aligned { l with viewportContent := c } hw (hI.2 hw).1

theorem layoutInv_setVerticalAlignment (l : Layout) (hI : LayoutInv l) (a : VerticalAlignment) :
    LayoutInv (l.setVerticalAlignment a) := by
  simp only [Layout.setVerticalAlignment]
  split
  · next hg =>
    exact layoutInv_of_aligned { l with verticalAlign := a } (ne_of_gt hg.2) (hI.2 (ne_of_gt hg.2)).1
  · next hg =>
    constructor
    · intro h
      exact hI.1 h
    · intro h
      obtain ⟨hpos, _⟩ := hI.2 h
      refine ⟨hpos, fun hc => absurd ?_ hg⟩
      exact ⟨hc, hpos⟩

theorem layoutInv_update (l : Layout) (hI : LayoutInv l) (w h : Int) (hw : 0 < w) :
    LayoutInv (l.update (Msg.windowSize w h)) := by
  simp only [Layout.update]
  split
  · next h0 =>
    split
    · next hp =>
      refine layoutInv_of_aligned _ ?_ ?_
      · exact fun hz => absurd (show w = 0 from hz) (by omega)
      · exact hw
    · next hp =>
      constructor
      · intro hz
        exact absurd (show w = 0 from hz) (by omega)
      · intro _
        refine ⟨hw, fun hc => ?_⟩
        have hpc : l.pendingContent = l.viewportContent := hI.1 h0
        have hpe : l.pendingContent = "" := not_ne_iff.mp hp
        exact absurd (hpe ▸ hpc).symm hc
  · next h0 =>
    refine layoutInv_of_aligned _ ?_ ?_
    · exact fun hz => absurd (show w = 0 from hz) (by omega)
    · exact hw

theorem reachable_layoutInv (l : Layout) (hl : Reachable l) : LayoutInv l := by
  induction hl with
  | init => exact layoutInv_new
  | setHeader l s _ ih => exact ih
  | setFooter l s _ ih => exact ih
  | setHeaderHeight l n _ ih => exact ih
  | setFooterHeight l n _ ih => exact ih
  | setHeaderStyle l st _ ih => exact ih
  | setFooterStyle l st _ ih => exact ih
  | setContent l s _ ih => exact layoutInv_setContent l ih s
  | setVerticalAlignment l a _ ih => exact layoutInv_setVerticalAlignment l ih a
  | update l w h _ hw ih => exact layoutInv_update l ih w h hw
  | lineDown l _ ih =>
    exact layoutInv_viewport_op l ih _ (ViewportModel.lineDown_Width _ _)
      (ViewportModel.lineDown_Height _ _) (ViewportModel.lineDown_lines _ _)
  | lineUp l _ ih =>
    exact layoutInv_viewport_op l ih _ (ViewportModel.lineUp_Width _ _)
      (ViewportModel.lineUp_Height _ _) (ViewportModel.lineUp_lines _ _)
  | halfPageDown l _ ih =>
    exact layoutInv_viewport_op l ih _ (ViewportModel.lineDown_Width _ _)
      (ViewportModel.lineDown_Height _ _) (ViewportModel.lineDown_lines _ _)
  | halfPageUp l _ ih =>
    exact layoutInv_viewport_op l ih _ (ViewportModel.lineUp_Width _ _)
      (ViewportModel.lineUp_Height _ _) (ViewportModel.lineUp_lines _ _)
  | pageDown l _ ih =>
    exact layoutInv_viewport_op l ih _ (ViewportModel.lineDown_Width _ _)
      (ViewportModel.lineDown_Height _ _) (ViewportModel.lineDown_lines _ _)
  | pageUp l _ ih =>
    exact layoutInv_viewport_op l ih _ (ViewportModel.lineUp_Width _ _)
      (ViewportModel.lineUp_Height _ _) (ViewportModel.lineUp_lines _ _)
  | scrollToTop l _ ih =>
    exact layoutInv_viewport_op l ih _ (ViewportModel.gotoTop_Width _)
      (ViewportModel.gotoTop_Height _) (ViewportModel.gotoTop_lines _)
  | scrollToBottom l _ ih =>
    exact layoutInv_viewport_op l ih _ (ViewportModel.gotoBottom_Width _)
      (ViewportModel.gotoBottom_Height _) (ViewportModel.gotoBottom_lines _)
  | setViewportYPosition l y _ ih =>
    exact layoutInv_viewport_op l ih _ rfl rfl rfl

theorem padNewlines_eq_replicate (n : Nat) :
    padNewlines n = String.mk (List.replicate n '\n') := by
  induction n with
  | zero => rfl
  | succ k ih =>
    rw [padNewlines, ih, List.replicate_succ']
    rfl

theorem tdiv_two_toNat (x : Int) (hx : 0 ≤ x) : (Int.tdiv x 2).toNat = x.toNat / 2 := by
  obtain ⟨n, rfl⟩ := Int.eq_ofNat_of_zero_le hx
  rfl

namespace ViewportModel

theorem maxYOffset_nonneg (m : ViewportModel) : 0 ≤ m.maxYOffset :=
  le_max_left _ _

theorem maxYOffset_empty (m : ViewportModel) (hl : m.lines = []) (hH : 0 ≤ m.Height) :
    m.maxYOffset = 0 := by
  rw [maxYOffset, hl]
  simp only [List.length_nil, Nat.cast_zero, zero_sub]
  omega

theorem maxYOffset_congr (m m' : ViewportModel) (hl : m'.lines = m.lines)
    (hh : m'.Height = m.Height) : m'.maxYOffset = m.maxYOffset := by
  rw [maxYOffset, maxYOffset, hl, hh]

theorem gotoTop_YOffset (m : ViewportModel) (hlo : 0 ≤ m.YOffset) : m.gotoTop.YOffset = 0 := by
  rw [gotoTop]
  split
  · next hb =>
    have : m.YOffset ≤ 0 := by simpa [atTop] using hb
    omega
  · show clampInt 0 0 m.maxYOffset = 0
    have := maxYOffset_nonneg m
    rw [clampInt]
    omega

theorem gotoBottom_YOffset (m : ViewportModel) : m.gotoBottom.YOffset = m.maxYOffset := by
  show clampInt m.maxYOffset 0 m.maxYOffset = m.maxYOffset
  have := maxYOffset_nonneg m
  rw [clampInt]
  omega

theorem lineDown_of_atBottom (m : ViewportModel) (n : Int) (h : m.maxYOffset ≤ m.YOffset) :
    m.lineDown n = m := by
  rw [lineDown]
  split
  · rfl
  · next hcond =>
    exact absurd (Or.inl (by simp only [atBottom, decide_eq_true_eq, ge_iff_le]; exact h)) hcond

theorem lineUp_of_atTop (m : ViewportModel) (n : Int) (h : m.YOffset ≤ 0) :
    m.lineUp n = m := by
  rw [lineUp]
  split
  · rfl
  · next hcond =>
    exact absurd (Or.inl (by simp only [atTop, decide_eq_true_eq]; exact h)) hcond

theorem lineDown_zero (m : ViewportModel) : m.lineDown 0 = m := by
  rw [lineDown]
  split
  · rfl
  · next hcond => exact absurd (Or.inr (Or.inl rfl)) hcond

theorem lineUp_zero (m : ViewportModel) : m.lineUp 0 = m := by
  rw [lineUp]
  split
  · rfl
  · next hcond => exact absurd (Or.inr (Or.inl rfl)) hcond

theorem lineDown_YOffset_min (m : ViewportModel) (n : Int) (hn : 0 ≤ n)
    (hH : 0 ≤ m.Height) (hlo : 0 ≤ m.YOffset) (hhi : m.YOffset ≤ m.maxYOffset) :
    (m.lineDown n).YOffset = min (m.YOffset + n) m.maxYOffset := by
  rw [lineDown]
  split
  · next hcond =>
    rcases hcond with hb | h0 | hl
    · have hb' : m.maxYOffset ≤ m.YOffset := by simpa [atBottom] using hb
      omega
    · omega
    · have := maxYOffset_empty m hl hH
      omega
  · show clampInt (m.YOffset + n) 0 m.maxYOffset = _
    rw [clampInt]
    omega

theorem lineUp_YOffset_max (m : ViewportModel) (n : Int) (hn : 0 ≤ n)
    (hH : 0 ≤ m.Height) (hlo : 0 ≤ m.YOffset) (hhi : m.YOffset ≤ m.maxYOffset) :
    (m.lineUp n).YOffset = max (m.YOffset - n) 0 := by
  rw [lineUp]
  split
  · next hcond =>
    rcases hcond with hb | h0 | hl
    · have hb' : m.YOffset ≤ 0 := by simpa [atTop] using hb
      omega
    · omega
    · have := maxYOffset_empty m hl hH
      omega
  · show clampInt (m.YOffset - n) 0 m.maxYOffset = _
    rw [clampInt]
    omega

theorem lineDown_YOffset_bounds (m : ViewportModel) (n : Int)
    (hlo : 0 ≤ m.YOffset) (hhi : m.YOffset ≤ m.maxYOffset) :
    0 ≤ (m.lineDown n).YOffset ∧ (m.lineDown n).YOffset ≤ m.maxYOffset := by
  rw [lineDown]
  split
  · exact ⟨hlo, hhi⟩
  · show 0 ≤ clampInt (m.YOffset + n) 0 m.maxYOffset ∧
      clampInt (m.YOffset + n) 0 m.maxYOffset ≤ m.maxYOffset
    have := maxYOffset_nonneg m
    rw [clampInt]
    omega

theorem lineUp_YOffset_bounds (m : ViewportModel) (n : Int)
    (hlo : 0 ≤ m.YOffset) (hhi : m.YOffset ≤ m.maxYOffset) :
    0 ≤ (m.lineUp n).YOffset ∧ (m.lineUp n).YOffset ≤ m.maxYOffset := by
  rw [lineUp]
  split
  · exact ⟨hlo, hhi⟩
  · show 0 ≤ clampInt (m.YOffset - n) 0 m.maxYOffset ∧
      clampInt (m.YOffset - n) 0 m.maxYOffset ≤ m.maxYOffset
    have := maxYOffset_nonneg m
    rw [clampInt]
    omega

theorem two_half_eq_full (m : ViewportModel) (k : Int) (hk0 : 0 ≤ k)
    (hH : m.Height = 2 * k) (hlo : 0 ≤ m.YOffset) :
    ((m.gotoTop.lineDown k).lineDown k).YOffset = (m.gotoTop.lineDown (2 * k)).YOffset := by
  have hH0 : 0 ≤ m.Height := by omega
  have h0 : m.gotoTop.YOffset = 0 := gotoTop_YOffset m hlo
  have hM0 : m.gotoTop.maxYOffset = m.maxYOffset :=
    maxYOffset_congr _ _ (gotoTop_lines m) (gotoTop_Height m)
  have hH1 : m.gotoTop.Height = m.Height := gotoTop_Height m
  have hMn : 0 ≤ m.maxYOffset := maxYOffset_nonneg m
  have e1 : (m.gotoTop.lineDown k).YOffset = min (m.gotoTop.YOffset + k) m.maxYOffset := by
    rw [lineDown_YOffset_min m.gotoTop k hk0 (by omega) (by omega) (by omega), hM0]
  have hM1 : (m.gotoTop.lineDown k).maxYOffset = m.maxYOffset := by
    rw [maxYOffset_congr m.gotoTop (m.gotoTop.lineDown k) (lineDown_lines _ _)
      (lineDown_Height _ _), hM0]
  have hH2 : (m.gotoTop.lineDown k).Height = m.Height := by
    rw [lineDown_Height, hH1]
  have e2 : ((m.gotoTop.lineDown k).lineDown k).YOffset =
      min ((m.gotoTop.lineDown k).YOffset + k) (m.gotoTop.lineDown k).maxYOffset :=
    lineDown_YOffset_min _ k hk0 (by omega) (by omega) (by omega)
  have e3 : (m.gotoTop.lineDown (2 * k)).YOffset =
      min (m.gotoTop.YOffset + 2 * k) m.maxYOffset := by
    rw [lineDown_YOffset_min m.gotoTop (2 * k) (by omega) (by omega) (by omega) (by omega), hM0]
  omega

end ViewportModel

theorem Layout.applyAlignment_viewport_Width (l : Layout) :
    l.applyAlignment.viewport.Width = l.viewport.Width := by
  rw [Layout.applyAlignment]
  split
  · rfl
  · exact ViewportModel.setContent_Width _ _

theorem Layout.applyAlignment_viewport_Height (l : Layout) :
    l.applyAlignment.viewport.Height = l.viewport.Height := by
  rw [Layout.applyAlignment]
  split
  · rfl
  · exact ViewportModel.setContent_Height _ _

theorem Layout.applyAlignment_viewportContent (l : Layout) :
    l.applyAlignment.viewportContent = l.viewportContent := by
  rw [Layout.applyAlignment]
  split <;> rfl

theorem Layout.applyAlignment_verticalAlign (l : Layout) :
    l.applyAlignment.verticalAlign = l.verticalAlign := by
  rw [Layout.applyAlignment]
  split <;> rfl

theorem Layout.applyAlignment_pendingContent (l : Layout) :
    l.applyAlignment.pendingContent = l.pendingContent := by
  rw [Layout.applyAlignment]
  split <;> rfl

theorem Layout.applyAlignment_windowHeight (l : Layout) :
    l.applyAlignment.windowHeight = l.windowHeight := by
  rw [Layout.applyAlignment]
  split <;> rfl

theorem Layout.applyAlignment_lines_of_ne (l : Layout) (h : l.viewport.Width ≠ 0) :
    l.applyAlignment.viewport.lines =
      contentLines (alignContent l.viewportContent l.verticalAlign l.viewport.Height) := by
  rw [Layout.applyAlignment_of_ne _ h]
  exact ViewportModel.setContent_lines _ _

theorem Layout.setContent_unsized (l : Layout) (c : String) (hu : l.viewport.Width = 0) :
    l.setContent c = { l with viewportContent := c, pendingContent := c } := by
  simp only [Layout.setContent]
  split
  · rfl
  · next hne =>
    exact absurd (show l.viewport.Width = 0 from hu) (show l.viewport.Width ≠ 0 from hne)

theorem Layout.update_first_resize (l : Layout) (w h : Int) (hu : l.viewport.Width = 0)
    (hp : l.pendingContent ≠ "") :
    l.update (Msg.windowSize w h) =
      ({ l with
          windowWidth := w
          windowHeight := h
          headerStyle := l.headerStyle.withWidth w
          footerStyle := l.footerStyle.withWidth w
          viewport := ViewportModel.new w (h - l.headerHeight - l.footerHeight)
          viewportContent := l.pendingContent
          pendingContent := "" }).applyAlignment := by
  simp [Layout.update, hu, hp]

theorem Layout.update_first_resize_empty (l : Layout) (w h : Int) (hu : l.viewport.Width = 0)
    (hp : l.pendingContent = "") :
    l.update (Msg.windowSize w h) =
      { l with
        windowWidth := w
        windowHeight := h
        headerStyle := l.headerStyle.withWidth w
        footerStyle := l.footerStyle.withWidth w
        viewport := ViewportModel.new w (h - l.headerHeight - l.footerHeight) } := by
  simp [Layout.update, hu, hp]

theorem Layout.setVerticalAlignment_of_empty (l : Layout) (a : VerticalAlignment)
    (hc : l.viewportContent = "") :
    l.setVerticalAlignment a = { l with verticalAlign := a } := by
  simp only [Layout.setVerticalAlignment]
  split
  · next hg =>
    exact absurd (show l.viewportContent = "" from hc) (show l.viewportContent ≠ "" from hg.1)
  · rfl

theorem Layout.update_resized (l : Layout) (w h : Int) (hu : l.viewport.Width ≠ 0) :
    l.update (Msg.windowSize w h) =
      ({ l with
          windowWidth := w
          windowHeight := h
          headerStyle := l.headerStyle.withWidth w
          footerStyle := l.footerStyle.withWidth w
          viewport := { l.viewport with
            Width := w
            Height := h - l.headerHeight - l.footerHeight } }).applyAlignment := by
  simp [Layout.update, hu]

theorem Layout.update_viewport_Height (l : Layout) (w h : Int) :
    (l.update (Msg.windowSize w h)).viewport.Height = h - l.headerHeight - l.footerHeight := by
  by_cases hu : l.viewport.Width = 0
  · by_cases hp : l.pendingContent = ""
    · rw [Layout.update_first_resize_empty l w h hu hp]
      try rfl
    · rw [Layout.update_first_resize l w h hu hp, Layout.applyAlignment_viewport_Height]
      try rfl
  · rw [Layout.update_resized l w h hu, Layout.applyAlignment_viewport_Height]
    try rfl

theorem Layout.update_windowHeight (l : Layout) (w h : Int) :
    (l.update (Msg.windowSize w h)).windowHeight = h := by
  by_cases hu : l.viewport.Width = 0
  · by_cases hp : l.pendingContent = ""
    · rw [Layout.update_first_resize_empty l w h hu hp]
      try rfl
    · rw [Layout.update_first_resize l w h hu hp, Layout.applyAlignment_windowHeight]
      try rfl
  · rw [Layout.update_resized l w h hu, Layout.applyAlignment_windowHeight]
    try rfl

/-- C1: for every content string `C` and viewport height `H`, the alignment
computation of `applyAlignment` yields: when `lineCount C < H`, `C`
unchanged for Top, `floor((H - lineCount C)/2)` leading line-break
characters followed by `C` for Center, and exactly `H - lineCount C`
leading line-break characters followed by `C` for Bottom; when
`lineCount C >= H`, the content handed to the viewport is `C` exactly, for
every alignment mode. -/
theorem c1_alignment_padding (C : String) (mode : VerticalAlignment) (H : Int) :
    (lineCount C < H →
      alignContent C mode H =
        (match mode with
          | VerticalAlignment.AlignTop => C
          | VerticalAlignment.AlignCenter =>
              String.mk (List.replicate ((H - lineCount C).toNat / 2) '\n') ++ C
          | VerticalAlignment.AlignBottom =>
              String.mk (List.replicate (H - lineCount C).toNat '\n') ++ C)) ∧
    (H ≤ lineCount C → alignContent C mode H = C) := by
  constructor
  · intro hlt
    have hpos : 0 ≤ H - lineCount C := by omega
    simp only [alignContent]
    rw [if_pos hlt]
    cases mode with
    | AlignTop => rfl
    | AlignCenter =>
      show padNewlines (Int.tdiv (H - lineCount C) 2).toNat ++ C =
        String.mk (List.replicate ((H - lineCount C).toNat / 2) '\n') ++ C
      rw [padNewlines_eq_replicate, tdiv_two_toNat _ hpos]
    | AlignBottom =>
      show padNewlines (H - lineCount C).toNat ++ C =
        String.mk (List.replicate (H - lineCount C).toNat '\n') ++ C
      rw [padNewlines_eq_replicate]
  · intro hge
    simp only [alignContent]
    rw [if_neg (not_lt.mpr hge)]

/-- C1 witness: the spec's own scenario, H = 10 and a 4-line content,
Center mode gives 3 leading blank lines; and a 3-line content at H = 3 is
handed over unchanged. -/
theorem c1_alignment_padding_witness :
    lineCount "a\nb\nc\nd" < 10 ∧
    alignContent "a\nb\nc\nd" VerticalAlignment.AlignCenter 10 =
      String.mk (List.replicate ((10 - lineCount "a\nb\nc\nd").toNat / 2) '\n') ++ "a\nb\nc\nd" ∧
    (3 : Int) ≤ lineCount "a\nb\nc" ∧
    alignContent "a\nb\nc" VerticalAlignment.AlignBottom 3 = "a\nb\nc" :=
  ⟨by decide,
   (c1_alignment_padding "a\nb\nc\nd" VerticalAlignment.AlignCenter 10).1 (by decide),
   by decide,
   (c1_alignment_padding "a\nb\nc" VerticalAlignment.AlignBottom 3).2 (by decide)⟩

/-- C5: the alignment recomputation is a pure function of the raw content,
the alignment mode and the viewport height, and it is idempotent: running
`applyAlignment` twice in succession leaves the viewport content
bit-identical to running it once, and any two layouts agreeing on those
three inputs receive identical aligned viewport content. -/
theorem c5_alignment_pure_idempotent (l l1 l2 : Layout) :
    l.applyAlignment.applyAlignment.viewport.lines = l.applyAlignment.viewport.lines ∧
    (l1.viewportContent = l2.viewportContent → l1.verticalAlign = l2.verticalAlign →
      l1.viewport.Height = l2.viewport.Height →
      l1.viewport.Width ≠ 0 → l2.viewport.Width ≠ 0 →
      l1.applyAlignment.viewport.lines = l2.applyAlignment.viewport.lines) := by
  constructor
  · by_cases hw : l.viewport.Width = 0
    · have h1 : l.applyAlignment = l := by rw [Layout.applyAlignment, if_pos hw]
      rw [h1, h1]
    · have hw2 : l.applyAlignment.viewport.Width ≠ 0 := by
        rw [Layout.applyAlignment_viewport_Width]; exact hw
      rw [Layout.applyAlignment_lines_of_ne _ hw2, Layout.applyAlignment_lines_of_ne _ hw,
        Layout.applyAlignment_viewportContent, Layout.applyAlignment_verticalAlign,
        Layout.applyAlignment_viewport_Height]
  · intro hc ha hh h1 h2
    rw [Layout.applyAlignment_lines_of_ne _ h1, Layout.applyAlignment_lines_of_ne _ h2,
      hc, ha, hh]

/-- C5 witness: idempotence and input-determination evaluated on a sized
layout. -/
theorem c5_alignment_pure_idempotent_witness :
    (Layout.New.update (Msg.windowSize 6 8)).applyAlignment.applyAlignment.viewport.lines =
      (Layout.New.update (Msg.windowSize 6 8)).applyAlignment.viewport.lines ∧
    ((Layout.New.update (Msg.windowSize 6 8)).viewport.Width ≠ 0 ∧
      (Layout.New.update (Msg.windowSize 6 8)).applyAlignment.viewport.lines =
        (Layout.New.update (Msg.windowSize 6 8)).applyAlignment.viewport.lines) :=
  ⟨(c5_alignment_pure_idempotent (Layout.New.update (Msg.windowSize 6 8))
      (Layout.New.update (Msg.windowSize 6 8)) (Layout.New.update (Msg.windowSize 6 8))).1,
   by decide,
   (c5_alignment_pure_idempotent (Layout.New.update (Msg.windowSize 6 8))
      (Layout.New.update (Msg.windowSize 6 8)) (Layout.New.update (Msg.windowSize 6 8))).2
     rfl rfl rfl (by decide) (by decide)⟩

/-- C9: with windowHeight 0 (before the first resize event) View returns
the fixed initializing placeholder; with nonzero windowHeight it returns
the styled header block, the viewport's rendered body and the styled
footer block joined as a left-aligned vertical stack. -/
theorem c9_view_branches (l : Layout) :
    (l.windowHeight = 0 → l.view = "Initializing...") ∧
    (l.windowHeight ≠ 0 →
      l.view = joinVertical HPos.left
        [l.headerStyle.render l.header, l.viewport.view, l.footerStyle.render l.footer]) := by
  constructor
  · intro h
    rw [Layout.view, if_pos h]
  · intro h
    rw [Layout.view, if_neg h]

/-- C9 witness: the fresh layout renders the placeholder; a resized layout
renders the three stacked blocks. -/
theorem c9_view_branches_witness :
    Layout.New.windowHeight = 0 ∧ Layout.New.view = "Initializing..." ∧
    (Layout.New.update (Msg.windowSize 4 4)).windowHeight ≠ 0 ∧
    (Layout.New.update (Msg.windowSize 4 4)).view =
      joinVertical HPos.left
        [(Layout.New.update (Msg.windowSize 4 4)).headerStyle.render
            (Layout.New.update (Msg.windowSize 4 4)).header,
          (Layout.New.update (Msg.windowSize 4 4)).viewport.view,
          (Layout.New.update (Msg.windowSize 4 4)).footerStyle.render
            (Layout.New.update (Msg.windowSize 4 4)).footer] :=
  ⟨rfl, (c9_view_branches Layout.New).1 rfl, by decide,
   (c9_view_branches (Layout.New.update (Msg.windowSize 4 4))).2 (by decide)⟩

/-- C10: if SetContent is called with the empty string before any resize
event, the first resize does not run the alignment algorithm (the
pending-content application is guarded by a non-emptiness check), so the
newly constructed viewport keeps its default empty line buffer for every
alignment mode, including Center and Bottom. -/
theorem c10_empty_pending_skips_alignment (mode : VerticalAlignment) (w h : Int) :
    (((Layout.New.setVerticalAlignment mode).setContent "").update
        (Msg.windowSize w h)).viewport = ViewportModel.new w (h - 1 - 1) ∧
    (((Layout.New.setVerticalAlignment mode).setContent "").update
        (Msg.windowSize w h)).pendingContent = "" := by
  rw [Layout.setVerticalAlignment_of_empty _ _ rfl, Layout.setContent_unsized _ _ rfl,
    Layout.update_first_resize_empty _ _ _ rfl rfl]
  exact ⟨rfl, rfl⟩

/-- C8: evaluation at the failing input.  On a sized layout (height 5)
holding 20 lines of content, one LineDown moves the scroll offset to 1 and
ViewportAtTop becomes false, yet GetViewportYPosition still returns 0: the
accessor reads the viewport's YPosition placement field, which no scroll
operation ever writes, not the YOffset offset that ViewportAtTop and
ViewportAtBottom compare. -/
theorem c8_yposition_is_not_scroll_offset :
    (((Layout.New.update (Msg.windowSize 10 7)).setContent
        (padNewlines 19 ++ "x")).lineDown).getViewportYPosition = 0 ∧
    (((Layout.New.update (Msg.windowSize 10 7)).setContent
        (padNewlines 19 ++ "x")).lineDown).viewport.YOffset = 1 ∧
    (((Layout.New.update (Msg.windowSize 10 7)).setContent
        (padNewlines 19 ++ "x")).lineDown).viewportAtTop = false :=
  ⟨by decide, by decide, by decide⟩

/-- C3 counterexample: on a sized layout (window height 24, viewport
height 22), SetHeaderHeight 3 leaves the viewport height at 22 while
windowHeight - headerHeight - footerHeight is 20, so the claimed equation
fails in a reachable state immediately after the setter. -/
theorem c3_counterexample :
    Reachable ((Layout.New.update (Msg.windowSize 80 24)).setHeaderHeight 3) ∧
    ((Layout.New.update (Msg.windowSize 80 24)).setHeaderHeight 3).viewport.Height ≠
      ((Layout.New.update (Msg.windowSize 80 24)).setHeaderHeight 3).windowHeight -
        ((Layout.New.update (Msg.windowSize 80 24)).setHeaderHeight 3).headerHeight -
        ((Layout.New.update (Msg.windowSize 80 24)).setHeaderHeight 3).footerHeight :=
  ⟨Reachable.setHeaderHeight _ 3 (Reachable.update _ 80 24 Reachable.init (by norm_num)),
   by decide⟩

/-- C3 (amended): every resize event establishes
viewportHeight = windowHeight - headerHeight - footerHeight with the
header/footer heights current at that event; SetHeaderHeight and
SetFooterHeight on their own leave the viewport (and hence its height)
unchanged, so the equation is only restored by the next resize event. -/
theorem c3_amended_viewport_height (l : Layout) (w h n : Int) :
    (l.update (Msg.windowSize w h)).viewport.Height = h - l.headerHeight - l.footerHeight ∧
    (l.update (Msg.windowSize w h)).windowHeight = h ∧
    (l.setHeaderHeight n).viewport = l.viewport ∧
    (l.setFooterHeight n).viewport = l.viewport :=
  ⟨Layout.update_viewport_Height l w h, Layout.update_windowHeight l w h, rfl, rfl⟩

/-- C4 (amended): in every reachable sized state whose raw content is
non-empty, the viewport's line buffer equals the alignment function
applied to the current raw content, alignment mode and viewport height —
recomputed from the raw content, never patched incrementally. -/
theorem c4_content_is_aligned_raw (l : Layout) (hR : Reachable l)
    (hw : l.viewport.Width ≠ 0) (hc : l.viewportContent ≠ "") :
    l.viewport.lines =
      contentLines (alignContent l.viewportContent l.verticalAlign l.viewport.Height) :=
  ((reachable_layoutInv l hR).2 hw).2 hc

/-- C4 witness: the invariant evaluated on a concrete reachable sized
state. -/
theorem c4_content_is_aligned_raw_witness :
    Reachable ((Layout.New.setContent "hi").update (Msg.windowSize 4 5)) ∧
    ((Layout.New.setContent "hi").update (Msg.windowSize 4 5)).viewport.Width ≠ 0 ∧
    ((Layout.New.setContent "hi").update (Msg.windowSize 4 5)).viewportContent ≠ "" ∧
    ((Layout.New.setContent "hi").update (Msg.windowSize 4 5)).viewport.lines =
      contentLines (alignContent
        ((Layout.New.setContent "hi").update (Msg.windowSize 4 5)).viewportContent
        ((Layout.New.setContent "hi").update (Msg.windowSize 4 5)).verticalAlign
        ((Layout.New.setContent "hi").update (Msg.windowSize 4 5)).viewport.Height) :=
  ⟨Reachable.update _ 4 5 (Reachable.setContent _ "hi" Reachable.init) (by norm_num),
   by decide, by decide,
   c4_content_is_aligned_raw _
     (Reachable.update _ 4 5 (Reachable.setContent _ "hi" Reachable.init) (by norm_num))
     (by decide) (by decide)⟩

/-- C4 counterexample: a reachable sized state with empty raw content and
Center mode whose viewport line buffer differs from the aligned raw
content, so the invariant does not extend to the empty string. -/
theorem c4_counterexample :
    Reachable ((Layout.New.setVerticalAlignment VerticalAlignment.AlignCenter).update
      (Msg.windowSize 10 9)) ∧
    ((Layout.New.setVerticalAlignment VerticalAlignment.AlignCenter).update
      (Msg.windowSize 10 9)).viewport.Width ≠ 0 ∧
    ((Layout.New.setVerticalAlignment VerticalAlignment.AlignCenter).update
      (Msg.windowSize 10 9)).viewportContent = "" ∧
    ((Layout.New.setVerticalAlignment VerticalAlignment.AlignCenter).update
      (Msg.windowSize 10 9)).viewport.lines ≠
      contentLines (alignContent
        ((Layout.New.setVerticalAlignment VerticalAlignment.AlignCenter).update
          (Msg.windowSize 10 9)).viewportContent
        ((Layout.New.setVerticalAlignment VerticalAlignment.AlignCenter).update
          (Msg.windowSize 10 9)).verticalAlign
        ((Layout.New.setVerticalAlignment VerticalAlignment.AlignCenter).update
          (Msg.windowSize 10 9)).viewport.Height) :=
  ⟨Reachable.update _ 10 9 (Reachable.setVerticalAlignment _ _ Reachable.init) (by norm_num),
   by decide, by decide, by decide⟩

/-- C2 counterexample: with Center mode and the empty string set before
the first resize event, the first resize leaves the fresh viewport's line
buffer empty instead of applying the aligned (padded) empty content, so
the claim fails at the content string "". -/
theorem c2_counterexample :
    (((Layout.New.setVerticalAlignment VerticalAlignment.AlignCenter).setContent "").update
        (Msg.windowSize 10 10)).viewport.lines ≠
      contentLines (alignContent "" VerticalAlignment.AlignCenter
        (((Layout.New.setVerticalAlignment VerticalAlignment.AlignCenter).setContent "").update
            (Msg.windowSize 10 10)).viewport.Height) := by decide

/-- C2 (amended): for every NON-EMPTY content string set on an unsized
Layout: the call performs no viewport mutation, and the first subsequent
resize event (with positive width) constructs the viewport and applies
exactly that content aligned at the current mode and the freshly computed
height, after which pendingContent is cleared; content equal to "" is
skipped by the pending-content guard and the fresh viewport keeps its
default empty buffer. -/
theorem c2_pending_content_flow (l : Layout) (c : String) (w h : Int)
    (hu : l.viewport.Width = 0) (hc : c ≠ "") (hw : 0 < w) :
    (l.setContent c).viewport = l.viewport ∧
    ((l.setContent c).update (Msg.windowSize w h)).viewport.lines =
      contentLines (alignContent c l.verticalAlign (h - l.headerHeight - l.footerHeight)) ∧
    ((l.setContent c).update (Msg.windowSize w h)).pendingContent = "" := by
  rw [Layout.setContent_unsized l c hu]
  refine ⟨rfl, ?_, ?_⟩
  · rw [Layout.update_first_resize ({ l with viewportContent := c, pendingContent := c }) w h
      (show _ from hu) (show _ from hc)]
    rw [Layout.applyAlignment_lines_of_ne _
      (by intro hz; exact absurd (show w = 0 from hz) (by omega))]
    try rfl
  · rw [Layout.update_first_resize ({ l with viewportContent := c, pendingContent := c }) w h
      (show _ from hu) (show _ from hc)]
    rw [Layout.applyAlignment_pendingContent]
    try rfl

/-- C2 witness: the flow evaluated for content "hi" on a fresh layout in
Bottom mode, resized to 5 x 9. -/
theorem c2_pending_content_flow_witness :
    (Layout.New.setVerticalAlignment VerticalAlignment.AlignBottom).viewport.Width = 0 ∧
    ("hi" : String) ≠ "" ∧ (0 : Int) < 5 ∧
    ((Layout.New.setVerticalAlignment VerticalAlignment.AlignBottom).setContent "hi").viewport =
      (Layout.New.setVerticalAlignment VerticalAlignment.AlignBottom).viewport ∧
    (((Layout.New.setVerticalAlignment VerticalAlignment.AlignBottom).setContent "hi").update
        (Msg.windowSize 5 9)).viewport.lines =
      contentLines (alignContent "hi"
        (Layout.New.setVerticalAlignment VerticalAlignment.AlignBottom).verticalAlign
        (9 - (Layout.New.setVerticalAlignment VerticalAlignment.AlignBottom).headerHeight -
          (Layout.New.setVerticalAlignment VerticalAlignment.AlignBottom).footerHeight)) ∧
    (((Layout.New.setVerticalAlignment VerticalAlignment.AlignBottom).setContent "hi").update
        (Msg.windowSize 5 9)).pendingContent = "" :=
  ⟨rfl, by decide, by decide,
   (c2_pending_content_flow (Layout.New.setVerticalAlignment VerticalAlignment.AlignBottom)
      "hi" 5 9 rfl (by decide) (by decide)).1,
   (c2_pending_content_flow (Layout.New.setVerticalAlignment VerticalAlignment.AlignBottom)
      "hi" 5 9 rfl (by decide) (by decide)).2.1,
   (c2_pending_content_flow (Layout.New.setVerticalAlignment VerticalAlignment.AlignBottom)
      "hi" 5 9 rfl (by decide) (by decide)).2.2⟩

/-- C6: starting from any valid scroll position (offset within the valid
range, nonnegative height): the half-page operations scroll by exactly
floor(H/2) lines (Go truncating division) whenever that move stays within
the valid range, the page operations by exactly H lines likewise; starting
from the top, two HalfPageDown calls land exactly where one PageDown call
does when H is even; and H = 1 makes both half-page operations no-ops. -/
theorem c6_half_and_full_page (l : Layout)
    (hH : 0 ≤ l.viewport.Height) (hlo : 0 ≤ l.viewport.YOffset)
    (hhi : l.viewport.YOffset ≤ l.viewport.maxYOffset) :
    (l.viewport.YOffset + Int.tdiv l.viewport.Height 2 ≤ l.viewport.maxYOffset →
      l.halfPageDown.viewport.YOffset =
        l.viewport.YOffset + Int.tdiv l.viewport.Height 2) ∧
    (0 ≤ l.viewport.YOffset - Int.tdiv l.viewport.Height 2 →
      l.halfPageUp.viewport.YOffset =
        l.viewport.YOffset - Int.tdiv l.viewport.Height 2) ∧
    (l.viewport.YOffset + l.viewport.Height ≤ l.viewport.maxYOffset →
      l.pageDown.viewport.YOffset = l.viewport.YOffset + l.viewport.Height) ∧
    (0 ≤ l.viewport.YOffset - l.viewport.Height →
      l.pageUp.viewport.YOffset = l.viewport.YOffset - l.viewport.Height) ∧
    (2 ∣ l.viewport.Height →
      l.scrollToTop.halfPageDown.halfPageDown.viewport.YOffset =
        l.scrollToTop.pageDown.viewport.YOffset) ∧
    (l.viewport.Height = 1 → l.halfPageDown = l ∧ l.halfPageUp = l) := by
  have htd : 0 ≤ Int.tdiv l.viewport.Height 2 := Int.tdiv_nonneg hH (by norm_num)
  refine ⟨?_, ?_, ?_, ?_, ?_, ?_⟩
  · intro hle
    have hm := ViewportModel.lineDown_YOffset_min l.viewport (Int.tdiv l.viewport.Height 2)
      htd hH hlo hhi
    show (l.viewport.lineDown (Int.tdiv l.viewport.Height 2)).YOffset = _
    omega
  · intro hge
    have hm := ViewportModel.lineUp_YOffset_max l.viewport (Int.tdiv l.viewport.Height 2)
      htd hH hlo hhi
    show (l.viewport.lineUp (Int.tdiv l.viewport.Height 2)).YOffset = _
    omega
  · intro hle
    have hm := ViewportModel.lineDown_YOffset_min l.viewport l.viewport.Height hH hH hlo hhi
    show (l.viewport.lineDown l.viewport.Height).YOffset = _
    omega
  · intro hge
    have hm := ViewportModel.lineUp_YOffset_max l.viewport l.viewport.Height hH hH hlo hhi
    show (l.viewport.lineUp l.viewport.Height).YOffset = _
    omega
  · intro heven
    obtain ⟨k, hk⟩ := heven
    have hk0 : 0 ≤ k := by omega
    have htd2 : Int.tdiv l.viewport.Height 2 = k := by
      rw [hk]
      exact Int.mul_tdiv_cancel_left k (by norm_num)
    show ((l.viewport.gotoTop.lineDown
        (Int.tdiv (l.viewport.gotoTop).Height 2)).lineDown
        (Int.tdiv ((l.viewport.gotoTop).lineDown
          (Int.tdiv (l.viewport.gotoTop).Height 2)).Height 2)).YOffset =
      (l.viewport.gotoTop.lineDown (l.viewport.gotoTop).Height).YOffset
    rw [ViewportModel.gotoTop_Height, ViewportModel.lineDown_Height,
      ViewportModel.gotoTop_Height, htd2, hk]
    exact ViewportModel.two_half_eq_full l.viewport k hk0 hk hlo
  · intro h1
    constructor
    · show { l with viewport := l.viewport.lineDown (Int.tdiv l.viewport.Height 2) } = l
      rw [h1, show Int.tdiv 1 2 = 0 from rfl, ViewportModel.lineDown_zero]
    · show { l with viewport := l.viewport.lineUp (Int.tdiv l.viewport.Height 2) } = l
      rw [h1, show Int.tdiv 1 2 = 0 from rfl, ViewportModel.lineUp_zero]

/-- C6 witness: a sized layout with viewport height 4 and 20 content
lines; one half-page-down moves the offset by 2, and two half-page-downs
from the top coincide with one page-down. -/
theorem c6_half_and_full_page_witness :
    (0 : Int) ≤ ((Layout.New.update (Msg.windowSize 8 6)).setContent
        (padNewlines 19 ++ "x")).viewport.Height ∧
    (0 : Int) ≤ ((Layout.New.update (Msg.windowSize 8 6)).setContent
        (padNewlines 19 ++ "x")).viewport.YOffset ∧
    ((Layout.New.update (Msg.windowSize 8 6)).setContent
        (padNewlines 19 ++ "x")).viewport.YOffset ≤
      ((Layout.New.update (Msg.windowSize 8 6)).setContent
        (padNewlines 19 ++ "x")).viewport.maxYOffset ∧
    ((Layout.New.update (Msg.windowSize 8 6)).setContent
        (padNewlines 19 ++ "x")).halfPageDown.viewport.YOffset =
      ((Layout.New.update (Msg.windowSize 8 6)).setContent
        (padNewlines 19 ++ "x")).viewport.YOffset +
        Int.tdiv ((Layout.New.update (Msg.windowSize 8 6)).setContent
          (padNewlines 19 ++ "x")).viewport.Height 2 ∧
    ((Layout.New.update (Msg.windowSize 8 6)).setContent
        (padNewlines 19 ++ "x")).scrollToTop.halfPageDown.halfPageDown.viewport.YOffset =
      ((Layout.New.update (Msg.windowSize 8 6)).setContent
        (padNewlines 19 ++ "x")).scrollToTop.pageDown.viewport.YOffset :=
  ⟨by decide, by decide, by decide,
   (c6_half_and_full_page ((Layout.New.update (Msg.windowSize 8 6)).setContent
      (padNewlines 19 ++ "x")) (by decide) (by decide) (by decide)).1 (by decide),
   (c6_half_and_full_page ((Layout.New.update (Msg.windowSize 8 6)).setContent
      (padNewlines 19 ++ "x")) (by decide) (by decide) (by decide)).2.2.2.2.1 (by decide)⟩

/-- C7: from any state with a nonnegative scroll offset: ScrollToBottom
followed by LineDown leaves the offset unchanged at the maximum valid
offset; ScrollToTop puts the offset at 0 and a following LineUp leaves it
there; and (for offsets within the valid range) LineDown and LineUp keep
the offset clamped into [0, maxYOffset], never erroring or wrapping. -/
theorem c7_scroll_clamping (l : Layout) (hlo : 0 ≤ l.viewport.YOffset) :
    l.scrollToBottom.lineDown.viewport.YOffset = l.scrollToBottom.viewport.YOffset ∧
    l.scrollToBottom.viewport.YOffset = l.viewport.maxYOffset ∧
    l.scrollToTop.viewport.YOffset = 0 ∧
    l.scrollToTop.lineUp.viewport.YOffset = 0 ∧
    (l.viewport.YOffset ≤ l.viewport.maxYOffset →
      0 ≤ l.lineDown.viewport.YOffset ∧ l.lineDown.viewport.YOffset ≤ l.viewport.maxYOffset ∧
      0 ≤ l.lineUp.viewport.YOffset ∧ l.lineUp.viewport.YOffset ≤ l.viewport.maxYOffset) := by
  have hB : l.viewport.gotoBottom.YOffset = l.viewport.maxYOffset :=
    ViewportModel.gotoBottom_YOffset l.viewport
  have hMB : l.viewport.gotoBottom.maxYOffset = l.viewport.maxYOffset :=
    ViewportModel.maxYOffset_congr l.viewport _ (ViewportModel.gotoBottom_lines _)
      (ViewportModel.gotoBottom_Height _)
  refine ⟨?_, hB, ?_, ?_, ?_⟩
  · show (l.viewport.gotoBottom.lineDown 1).YOffset = l.viewport.gotoBottom.YOffset
    rw [ViewportModel.lineDown_of_atBottom _ 1 (by omega)]
  · exact ViewportModel.gotoTop_YOffset l.viewport hlo
  · show (l.viewport.gotoTop.lineUp 1).YOffset = 0
    have hT : l.viewport.gotoTop.YOffset = 0 := ViewportModel.gotoTop_YOffset l.viewport hlo
    rw [ViewportModel.lineUp_of_atTop _ 1 (by omega), hT]
  · intro hhi
    have h1 := ViewportModel.lineDown_YOffset_bounds l.viewport 1 hlo hhi
    have h2 := ViewportModel.lineUp_YOffset_bounds l.viewport 1 hlo hhi
    exact ⟨h1.1, h1.2, h2.1, h2.2⟩

/-- C7 witness: the clamping facts evaluated on a sized layout with 20
content lines scrolled to offset 1. -/
theorem c7_scroll_clamping_witness :
    (0 : Int) ≤ (((Layout.New.update (Msg.windowSize 10 7)).setContent
        (padNewlines 19 ++ "x")).lineDown).viewport.YOffset ∧
    (((Layout.New.update (Msg.windowSize 10 7)).setContent
        (padNewlines 19 ++ "x")).lineDown).scrollToBottom.lineDown.viewport.YOffset =
      (((Layout.New.update (Msg.windowSize 10 7)).setContent
        (padNewlines 19 ++ "x")).lineDown).scrollToBottom.viewport.YOffset ∧
    (((Layout.New.update (Msg.windowSize 10 7)).setContent
        (padNewlines 19 ++ "x")).lineDown).scrollToTop.lineUp.viewport.YOffset = 0 :=
  ⟨by decide,
   (c7_scroll_clamping (((Layout.New.update (Msg.windowSize 10 7)).setContent
      (padNewlines 19 ++ "x")).lineDown) (by decide)).1,
   (c7_scroll_clamping (((Layout.New.update (Msg.windowSize 10 7)).setContent
      (padNewlines 19 ++ "x")).lineDown) (by decide)).2.2.2.1⟩

end Scaffold
